import Mathlib

/-!
Verification of the tool-invocation contract layer of the Resend MCP server
(`src/index.ts`).  The server exposes Resend API operations as MCP tools; each
tool validates its arguments with a zod schema, resolves process-wide defaults
(sender, reply-to), builds the provider request, performs a single gateway
call, and renders the response (throwing an error that embeds the serialized
provider error payload on failure).

The embedding below translates the zod schemas and the handler bodies into
executable Lean definitions.  JavaScript `undefined`/optional values are
modelled with `Option`; JavaScript truthiness on strings ("" is falsy) and on
arrays/objects (always truthy) is modelled explicitly where the handlers rely
on it.
-/

namespace ResendMcp

/-- JSON values, used for provider payloads (`response.error`, `response.data`).
`Option Json` models a possibly-`undefined` JavaScript value; `Json.null`
models JavaScript `null`. -/
inductive Json where
  | null : Json
  | bool : Bool → Json
  | num : Int → Json
  | str : String → Json
  | arr : List Json → Json
  | obj : List (String × Json) → Json
deriving Repr

/-- One character of a JSON string literal, escaped as `JSON.stringify` does. -/
def escapeChar (c : Char) : String :=
  if c = '"' then "\\\""
  else if c = '\\' then "\\\\"
  else if c = '\n' then "\\n"
  else if c = '\r' then "\\r"
  else if c = '\t' then "\\t"
  else if c.toNat = 8 then "\\b"
  else if c.toNat = 12 then "\\f"
  else if c.toNat < 32 then
    "\\u00" ++ String.singleton (Nat.digitChar (c.toNat / 16))
      ++ String.singleton (Nat.digitChar (c.toNat % 16))
  else String.singleton c

/-- A JSON string literal with surrounding quotes, as `JSON.stringify` emits. -/
def quoteJson (s : String) : String :=
  "\"" ++ String.join (s.toList.map escapeChar) ++ "\""

mutual

/-- Compact serialization, modelling `JSON.stringify(v)` (no spacing). -/
def Json.stringify : Json → String
  | Json.null => "null"
  | Json.bool b => cond b "true" "false"
  | Json.num n => toString n
  | Json.str s => quoteJson s
  | Json.arr l => "[" ++ String.intercalate "," (stringifyElems l) ++ "]"
  | Json.obj m => "\x7b" ++ String.intercalate "," (stringifyMembers m) ++ "\x7d"

def stringifyElems : List Json → List String
  | [] => []
  | j :: rest => Json.stringify j :: stringifyElems rest

def stringifyMembers : List (String × Json) → List String
  | [] => []
  | (k, v) :: rest => (quoteJson k ++ ":" ++ Json.stringify v) :: stringifyMembers rest

end

/-- `n` space characters, for indented serialization. -/
def spacesN (n : Nat) : String := String.mk (List.replicate n ' ')

mutual

/-- Indented serialization, modelling `JSON.stringify(v, null, 2)`; the first
argument is the current indentation level. -/
def Json.stringifyIndent : Nat → Json → String
  | _, Json.null => "null"
  | _, Json.bool b => cond b "true" "false"
  | _, Json.num n => toString n
  | _, Json.str s => quoteJson s
  | _, Json.arr [] => "[]"
  | ind, Json.arr (j :: rest) =>
      "[\n" ++ String.intercalate ",\n" (indentElems (ind + 2) (j :: rest))
        ++ "\n" ++ spacesN ind ++ "]"
  | _, Json.obj [] => "\x7b\x7d"
  | ind, Json.obj (kv :: rest) =>
      "\x7b\n" ++ String.intercalate ",\n" (indentMembers (ind + 2) (kv :: rest))
        ++ "\n" ++ spacesN ind ++ "\x7d"

def indentElems : Nat → List Json → List String
  | _, [] => []
  | ind, j :: rest => (spacesN ind ++ Json.stringifyIndent ind j) :: indentElems ind rest

def indentMembers : Nat → List (String × Json) → List String
  | _, [] => []
  | ind, (k, v) :: rest =>
      (spacesN ind ++ quoteJson k ++ ": " ++ Json.stringifyIndent ind v)
        :: indentMembers ind rest

end

mutual

/-- JavaScript string conversion of a value interpolated into a template
literal (`String(x)`): strings unquoted, arrays joined by commas with
null/undefined elements rendered empty, plain objects as "[object Object]". -/
def jsToDisplay : Json → String
  | Json.null => "null"
  | Json.bool b => cond b "true" "false"
  | Json.num n => toString n
  | Json.str s => s
  | Json.arr l => String.intercalate "," (displayElems l)
  | Json.obj _ => "[object Object]"

def displayElems : List Json → List String
  | [] => []
  | Json.null :: rest => "" :: displayElems rest
  | j :: rest => jsToDisplay j :: displayElems rest

end

/-- Template-literal interpolation of a possibly-undefined value:
`undefined` renders as "undefined". -/
def jsShow (o : Option Json) : String :=
  match o with
  | none => "undefined"
  | some j => jsToDisplay j

/-- Interpolation of `JSON.stringify(x, null, 2)` where `x` may be
`undefined` (`JSON.stringify(undefined)` is `undefined`, rendered
"undefined" by the template). -/
def jsShowPretty (o : Option Json) : String :=
  match o with
  | none => "undefined"
  | some j => Json.stringifyIndent 0 j

/-- JavaScript object member access `j.k` (undefined when absent or when the
value is not an object). -/
def jsGet (k : String) : Json → Option Json
  | Json.obj m => (m.find? (fun p => p.1 == k)).map Prod.snd
  | _ => none

/-- Optional-chaining access `o?.k`. -/
def jsOptGet (o : Option Json) (k : String) : Option Json :=
  match o with
  | some j => jsGet k j
  | none => none

/-- Element conversion used by `Array.prototype.join`: null and undefined
become the empty string. -/
def joinShow (o : Option Json) : String :=
  match o with
  | none => ""
  | some Json.null => ""
  | some j => jsToDisplay j

/-! ## zod validators

`z.string().email()` is zod's email check: local part drawn from
ASCII alphanumerics and `_ ' + - .`, not starting with a dot, no two
consecutive dots anywhere, last local character not a dot or quote; exactly
one `@`; domain of one or more labels (alphanumeric start, alphanumeric or
hyphen body) each followed by a dot, ending in an alphabetic TLD of length
at least 2. -/

/-- Characters allowed in the local part of an address. -/
def localChar (c : Char) : Bool :=
  c.isAlphanum || c = '_' || c = '\x27' || c = '+' || c = '-' || c = '.'

/-- Characters allowed as the final local-part character. -/
def localEndChar (c : Char) : Bool :=
  c.isAlphanum || c = '_' || c = '+' || c = '-'

/-- Body characters of a domain label. -/
def labelBody (c : Char) : Bool :=
  c.isAlphanum || c = '-'

/-- No two consecutive dots. -/
def noDoubleDot : List Char → Bool
  | [] => true
  | [_] => true
  | a :: b :: rest => !(a = '.' && b = '.') && noDoubleDot (b :: rest)

/-- Split at the first occurrence of `sep`, if any. -/
def splitOnce (sep : Char) : List Char → Option (List Char × List Char)
  | [] => none
  | c :: rest =>
    if c = sep then some ([], rest)
    else (splitOnce sep rest).map (fun p => (c :: p.1, p.2))

/-- Split into dot-separated parts (like `String.split('.')`). -/
def splitDots : List Char → List (List Char)
  | [] => [[]]
  | c :: rest =>
    let r := splitDots rest
    if c = '.' then [] :: r
    else
      match r with
      | h :: t => (c :: h) :: t
      | [] => [[c]]

/-- Local part: nonempty, no leading dot, characters from the local set,
final character from the restricted set. -/
def localOk (l : List Char) : Bool :=
  match l with
  | [] => false
  | c :: _ =>
    !(c = '.') && l.all localChar &&
      (match l.getLast? with
       | some e => localEndChar e
       | none => false)

/-- A domain label: nonempty, alphanumeric start, alphanumeric/hyphen body. -/
def labelOk : List Char → Bool
  | [] => false
  | c :: rest => c.isAlphanum && rest.all labelBody

/-- Domain: one or more labels each followed by a dot, then an alphabetic
top-level domain of length at least 2. -/
def domainOk (d : List Char) : Bool :=
  match splitDots d with
  | [] => false
  | [_] => false
  | parts =>
    parts.dropLast.all labelOk &&
      decide (2 ≤ (parts.getLastD []).length) && (parts.getLastD []).all Char.isAlpha

/-- The `z.string().email()` validator. -/
def zodEmail (s : String) : Bool :=
  let cs := s.toList
  noDoubleDot cs &&
    (match splitOnce '@' cs with
     | none => false
     | some (lcl, dom) => localOk lcl && domainOk dom)

/-! ## Data model

Typed forms of the tool arguments after zod parsing (`src/index.ts`).
A `Recipients` value is zod's `z.union([z.string().email(),
z.array(z.string().email())])`: a single address or an array of addresses. -/

/-- A recipient field: one address or an array of addresses. -/
inductive Recipients where
  | single : String → Recipients
  | list : List String → Recipients
deriving DecidableEq, Repr

/-- An email tag (`{ name: z.string(), value: z.string() }`).  The schema in
`src/index.ts` places no character-set or length constraint on either field. -/
structure Tag where
  name : String
  value : String
deriving DecidableEq, Repr

/-- A send-email attachment (`{ filename, content, path? }`). -/
structure Attachment where
  filename : String
  content : String
  path : Option String
deriving DecidableEq, Repr

/-- A batch-entry attachment (`{ filename, content }`). -/
structure BatchAttachment where
  filename : String
  content : String
deriving DecidableEq, Repr

/-- Process-wide startup configuration (`senderEmailAddress`,
`replierEmailAddresses` in `src/index.ts`).  `senderEmailAddress` is the
value of `argv.sender || process.env.SENDER_EMAIL_ADDRESS` (possibly the
empty string); `replierEmailAddresses` is always an array. -/
structure ProcessConfig where
  senderEmailAddress : Option String
  replierEmailAddresses : List String
deriving DecidableEq, Repr

/-- JavaScript truthiness of the configured sender
(`!senderEmailAddress` is true for undefined and for the empty string). -/
def senderTruthy (cfg : ProcessConfig) : Bool :=
  match cfg.senderEmailAddress with
  | some s => decide (s ≠ "")
  | none => false

/-- JavaScript truthiness of a string (`"" ` is falsy). -/
def strTruthy (s : String) : Bool := decide (s ≠ "")

/-- JavaScript truthiness of a recipients value: a string is truthy when
nonempty; an array is always truthy. -/
def recTruthy : Recipients → Bool
  | Recipients.single s => strTruthy s
  | Recipients.list _ => true

/-- Arguments of the send-email tool as destructured by its handler.  `from`
and `replyTo` are `none` whenever the corresponding key is not part of the
effective schema (zod strips unrecognized keys), and otherwise hold the
invocation value when one was supplied. -/
structure SendEmailArgs where
  «to» : Recipients
  subject : String
  text : String
  html : Option String
  cc : Option Recipients
  bcc : Option Recipients
  scheduledAt : Option String
  tags : Option (List Tag)
  attachments : Option (List Attachment)
  headers : Option (List (String × String))
  «from» : Option String
  replyTo : Option Recipients
deriving DecidableEq, Repr

/-- The request object assembled by the send-email handler
(`emailRequest` in `src/index.ts`).  A `none` optional field means the key
is absent from the outgoing provider request. -/
structure EmailRequest where
  «to» : Recipients
  subject : String
  text : String
  «from» : String
  replyTo : Option Recipients
  html : Option String
  scheduledAt : Option String
  cc : Option Recipients
  bcc : Option Recipients
  tags : Option (List Tag)
  attachments : Option (List Attachment)
  headers : Option (List (String × String))
deriving DecidableEq, Repr

/-- `z.union([z.string().email(), z.array(z.string().email())])`. -/
def recipientsOk : Recipients → Bool
  | Recipients.single s => zodEmail s
  | Recipients.list l => l.all zodEmail

/-- Validation of the conditionally exposed `from` key: when the configured
sender is truthy the key is not in the schema (so parsing leaves it absent);
otherwise it is required as `z.string().email().nonempty()`. -/
def fromFieldOk (cfg : ProcessConfig) (a : SendEmailArgs) : Bool :=
  if senderTruthy cfg then
    match a.«from» with
    | none => true
    | some _ => false
  else
    match a.«from» with
    | some f => zodEmail f && decide (1 ≤ f.length)
    | none => false

/-- Validation of the conditionally exposed `replyTo` key: when
`replierEmailAddresses.length === 0` the key is an optional recipients
union; otherwise it is not in the schema and parsing leaves it absent. -/
def replyFieldOk (cfg : ProcessConfig) (a : SendEmailArgs) : Bool :=
  if cfg.replierEmailAddresses.length == 0 then
    match a.replyTo with
    | some r => recipientsOk r
    | none => true
  else
    match a.replyTo with
    | none => true
    | some _ => false

/-- Characterization of the possible outputs of zod parsing for the
send-email tool under a given process configuration: `to` (required) and
`cc`/`bcc` (optional) are recipient unions; `subject`/`text`/`html`/
`scheduledAt` are plain strings; `tags`/`attachments`/`headers` impose no
constraints beyond their string fields; `from` and `replyTo` follow the
conditional shape above. -/
def sendEmailSchemaOk (cfg : ProcessConfig) (a : SendEmailArgs) : Bool :=
  recipientsOk a.«to» &&
    (match a.cc with
     | some c => recipientsOk c
     | none => true) &&
    (match a.bcc with
     | some c => recipientsOk c
     | none => true) &&
    fromFieldOk cfg a && replyFieldOk cfg a

/-- `from ?? senderEmailAddress` (nullish coalescing). -/
def resolveFrom (cfg : ProcessConfig) (a : SendEmailArgs) : Option String :=
  match a.«from» with
  | some f => some f
  | none => cfg.senderEmailAddress

/-- `replyTo ?? replierEmailAddresses`: the invocation value when present,
otherwise the configured (possibly empty) list. -/
def resolveReplyTo (cfg : ProcessConfig) (a : SendEmailArgs) : Recipients :=
  match a.replyTo with
  | some r => r
  | none => Recipients.list cfg.replierEmailAddresses

/-- The handler's inclusion test for the resolved reply-to value:
`replyToEmailAddresses && (typeof replyToEmailAddresses === "string" ||
(Array.isArray(replyToEmailAddresses) && replyToEmailAddresses.length > 0))`.
A string passes when nonempty (truthiness); an array passes when nonempty. -/
def replyToIncluded : Recipients → Bool
  | Recipients.single s => strTruthy s
  | Recipients.list l => decide (0 < l.length)

/-- The `emailRequest` object built by the send-email handler once the
resolved sender is known: required fields always present; each optional
field added only when its JavaScript truthiness test passes (`if (html)`,
`if (scheduledAt)`, `if (cc)`, `if (bcc)`, `if (tags)`, `if (attachments)`,
`if (headers)`, and the reply-to test above). -/
def mkEmailRequest (cfg : ProcessConfig) (a : SendEmailArgs) (fromAddr : String) :
    EmailRequest :=
  let rt := resolveReplyTo cfg a
  { «to» := a.«to»
    subject := a.subject
    text := a.text
    «from» := fromAddr
    replyTo := if replyToIncluded rt then some rt else none
    html :=
      match a.html with
      | some h => if strTruthy h then some h else none
      | none => none
    scheduledAt :=
      match a.scheduledAt with
      | some s => if strTruthy s then some s else none
      | none => none
    cc :=
      match a.cc with
      | some c => if recTruthy c then some c else none
      | none => none
    bcc :=
      match a.bcc with
      | some c => if recTruthy c then some c else none
      | none => none
    tags := a.tags
    attachments := a.attachments
    headers := a.headers }

/-- The send-email handler up to the gateway call: resolve the sender, throw
`"from argument must be provided."` when the resolved value is not a string
(the `typeof fromEmailAddress !== "string"` guard), otherwise build the
request. -/
def sendEmailBuild (cfg : ProcessConfig) (a : SendEmailArgs) :
    Except String EmailRequest :=
  match resolveFrom cfg a with
  | none => Except.error "from argument must be provided."
  | some fromAddr => Except.ok (mkEmailRequest cfg a fromAddr)

/-! ## send-batch-emails -/

/-- One entry of the send-batch-emails `emails` array, as parsed by the
per-entry object schema (`from` is `z.string().email().optional()`; batch
attachments have no `path` field). -/
structure BatchEmail where
  «to» : Recipients
  subject : String
  text : String
  «from» : Option String
  html : Option String
  cc : Option Recipients
  bcc : Option Recipients
  replyTo : Option Recipients
  scheduledAt : Option String
  tags : Option (List Tag)
  attachments : Option (List BatchAttachment)
  headers : Option (List (String × String))
deriving DecidableEq, Repr

/-- Validation of a single batch entry by the per-entry object schema. -/
def batchEntrySchemaOk (e : BatchEmail) : Bool :=
  recipientsOk e.«to» &&
    (match e.«from» with
     | some f => zodEmail f
     | none => true) &&
    (match e.cc with
     | some c => recipientsOk c
     | none => true) &&
    (match e.bcc with
     | some c => recipientsOk c
     | none => true) &&
    (match e.replyTo with
     | some c => recipientsOk c
     | none => true)

/-- Rejection reasons for the `emails` array schema.  The spec's error
taxonomy names the over-100 rejection (`.max(100)`) `TooManyRecipients`;
any entry failing the per-entry object schema is an ordinary schema
violation. -/
inductive BatchSchemaError where
  | tooManyRecipients : BatchSchemaError
  | invalidEntry : BatchSchemaError
deriving DecidableEq, Repr

/-- Validation of the send-batch-emails `emails` argument:
`z.array(entrySchema).max(100)`.  The schema sets an upper bound of 100
entries and no lower bound. -/
def sendBatchValidate (emails : List BatchEmail) : Except BatchSchemaError Unit :=
  if 100 < emails.length then Except.error BatchSchemaError.tooManyRecipients
  else if emails.all batchEntrySchemaOk then Except.ok ()
  else Except.error BatchSchemaError.invalidEntry

/-- JavaScript `a || b` on possibly-undefined strings: the left operand when
it is a truthy string, otherwise the right operand. -/
def jsOrStr (a b : Option String) : Option String :=
  match a with
  | some s => if s = "" then b else some s
  | none => b

/-- The batch handler's per-entry normalization:
`{ ...email, from: email.from || senderEmailAddress }`. -/
def batchForward (cfg : ProcessConfig) (e : BatchEmail) : BatchEmail :=
  { e with «from» := jsOrStr e.«from» cfg.senderEmailAddress }

/-! ## delete-contact -/

/-- Arguments of the delete-contact tool. -/
structure DeleteContactArgs where
  audienceId : String
  contactId : Option String
  email : Option String
deriving DecidableEq, Repr

/-- The request forwarded to `resend.contacts.remove`. -/
structure DeleteContactRequest where
  audienceId : String
  id : Option String
  email : Option String
deriving DecidableEq, Repr

/-- JavaScript `!x` on a possibly-undefined string: true for undefined and
for the empty string. -/
def strFalsy : Option String → Bool
  | none => true
  | some s => decide (s = "")

/-- The delete-contact handler up to the gateway call: when neither
`contactId` nor `email` is truthy it throws before building the request;
otherwise it forwards `{ audienceId, id: contactId, email }`. -/
def deleteContactBuild (a : DeleteContactArgs) : Except String DeleteContactRequest :=
  if strFalsy a.contactId && strFalsy a.email then
    Except.error "Either contactId or email must be provided"
  else
    Except.ok { audienceId := a.audienceId, id := a.contactId, email := a.email }

/-! ## send-broadcast -/

/-- Arguments of the send-broadcast tool. -/
structure SendBroadcastArgs where
  broadcastId : String
  scheduledAt : Option String
deriving DecidableEq, Repr

/-- The optional second argument of `resend.broadcasts.send`. -/
structure BroadcastSendOptions where
  scheduledAt : String
deriving DecidableEq, Repr

/-- `scheduledAt ? { scheduledAt } : undefined`: the options object exists
only when `scheduledAt` is a truthy string; otherwise no scheduling field
is sent at all. -/
def sendBroadcastPayload (scheduledAt : Option String) : Option BroadcastSendOptions :=
  match scheduledAt with
  | some s => if strTruthy s then some { scheduledAt := s } else none
  | none => none

/-! ## Gateway responses and result rendering

Every tool performs a single gateway call, then runs the same pattern:
`if (response.error) throw new Error(prefix + JSON.stringify(response.error));`
followed by a tool-specific success text. -/

/-- The structured result of a gateway call: `error` is a non-null error
object when the provider failed, and `data` the success payload. -/
structure GatewayResponse where
  error : Option Json
  data : Option Json

/-- The registered tools. -/
inductive ToolName where
  | sendEmail | sendBatchEmails | getEmail | updateEmail | cancelEmail
  | createDomain | listDomains | getDomain | updateDomain | deleteDomain
  | verifyDomain | createApiKey | listApiKeys | deleteApiKey
  | createAudience | listAudiences | getAudience | deleteAudience
  | createContact | listContacts | getContact | updateContact | deleteContact
  | createBroadcast | listBroadcasts | getBroadcast | sendBroadcast
  | deleteBroadcast
deriving DecidableEq, Repr

/-- The per-tool text that precedes the serialized error payload in the
thrown message. -/
def errorHead : ToolName → String
  | ToolName.sendEmail => "Email failed to send: "
  | ToolName.sendBatchEmails => "Batch email failed to send: "
  | ToolName.getEmail => "Failed to get email: "
  | ToolName.updateEmail => "Failed to update email: "
  | ToolName.cancelEmail => "Failed to cancel email: "
  | ToolName.createDomain => "Failed to create domain: "
  | ToolName.listDomains => "Failed to list domains: "
  | ToolName.getDomain => "Failed to get domain: "
  | ToolName.updateDomain => "Failed to update domain: "
  | ToolName.deleteDomain => "Failed to delete domain: "
  | ToolName.verifyDomain => "Failed to verify domain: "
  | ToolName.createApiKey => "Failed to create API key: "
  | ToolName.listApiKeys => "Failed to list API keys: "
  | ToolName.deleteApiKey => "Failed to delete API key: "
  | ToolName.createAudience => "Failed to create audience: "
  | ToolName.listAudiences => "Failed to list audiences: "
  | ToolName.getAudience => "Failed to get audience: "
  | ToolName.deleteAudience => "Failed to delete audience: "
  | ToolName.createContact => "Failed to create contact: "
  | ToolName.listContacts => "Failed to list contacts: "
  | ToolName.getContact => "Failed to get contact: "
  | ToolName.updateContact => "Failed to update contact: "
  | ToolName.deleteContact => "Failed to delete contact: "
  | ToolName.createBroadcast => "Failed to create broadcast: "
  | ToolName.listBroadcasts => "Failed to list broadcasts: "
  | ToolName.getBroadcast => "Failed to get broadcast: "
  | ToolName.sendBroadcast => "Failed to send broadcast: "
  | ToolName.deleteBroadcast => "Failed to delete broadcast: "

/-- The IDs line of the send-batch-emails success text:
`response.data?.data.map(e => e.id).join(', ')`.  (The SDK's batch success
payload always carries a `data` array; a non-array would raise a TypeError
in JavaScript and does not occur on the success path.) -/
def batchIdsText (o : Option Json) : String :=
  match o with
  | none => "undefined"
  | some j =>
    match jsGet "data" j with
    | some (Json.arr l) => String.intercalate ", " (l.map (fun e => joinShow (jsGet "id" e)))
    | _ => "undefined"

/-- The success text of each tool, as produced from `response.data`. -/
def renderSuccess : ToolName → Option Json → String
  | ToolName.sendEmail, data =>
      "Email sent successfully! ID: " ++ jsShow (jsOptGet data "id")
  | ToolName.sendBatchEmails, data =>
      "Batch emails sent successfully! IDs: " ++ batchIdsText data
  | ToolName.getEmail, data => jsShowPretty data
  | ToolName.updateEmail, data =>
      "Email updated successfully! ID: " ++ jsShow (jsOptGet data "id")
  | ToolName.cancelEmail, data =>
      "Email cancelled successfully! ID: " ++ jsShow (jsOptGet data "id")
  | ToolName.createDomain, data =>
      "Domain created successfully! ID: " ++ jsShow (jsOptGet data "id")
        ++ "\n\nDNS Records to configure:\n" ++ jsShowPretty (jsOptGet data "records")
  | ToolName.listDomains, data => jsShowPretty (jsOptGet data "data")
  | ToolName.getDomain, data => jsShowPretty data
  | ToolName.updateDomain, data =>
      "Domain updated successfully! ID: " ++ jsShow (jsOptGet data "id")
  | ToolName.deleteDomain, data =>
      "Domain deleted successfully! ID: " ++ jsShow (jsOptGet data "id")
  | ToolName.verifyDomain, data =>
      "Domain verification triggered! ID: " ++ jsShow (jsOptGet data "id")
  | ToolName.createApiKey, data =>
      "API key created successfully! ID: " ++ jsShow (jsOptGet data "id")
        ++ "\nToken: " ++ jsShow (jsOptGet data "token")
        ++ "\n\nIMPORTANT: Save this token securely, it won\x27t be shown again!"
  | ToolName.listApiKeys, data => jsShowPretty data
  | ToolName.deleteApiKey, _ => "API key deleted successfully!"
  | ToolName.createAudience, data =>
      "Audience created successfully! ID: " ++ jsShow (jsOptGet data "id")
  | ToolName.listAudiences, data => jsShowPretty (jsOptGet data "data")
  | ToolName.getAudience, data => jsShowPretty data
  | ToolName.deleteAudience, data =>
      "Audience deleted successfully! ID: " ++ jsShow (jsOptGet data "id")
  | ToolName.createContact, data =>
      "Contact created successfully! ID: " ++ jsShow (jsOptGet data "id")
  | ToolName.listContacts, data => jsShowPretty (jsOptGet data "data")
  | ToolName.getContact, data => jsShowPretty data
  | ToolName.updateContact, data =>
      "Contact updated successfully! ID: " ++ jsShow (jsOptGet data "id")
  | ToolName.deleteContact, _ => "Contact deleted successfully!"
  | ToolName.createBroadcast, data =>
      "Broadcast created successfully! ID: " ++ jsShow (jsOptGet data "id")
  | ToolName.listBroadcasts, data => jsShowPretty (jsOptGet data "data")
  | ToolName.getBroadcast, data => jsShowPretty data
  | ToolName.sendBroadcast, data =>
      "Broadcast sent successfully! ID: " ++ jsShow (jsOptGet data "id")
  | ToolName.deleteBroadcast, data =>
      "Broadcast deleted successfully! ID: " ++ jsShow (jsOptGet data "id")

/-- The shared response-handling tail of every tool handler: a structured
provider error becomes a thrown message embedding its serialization; a
success becomes the tool's success text.  The provider error is never
inspected, altered, or swallowed. -/
def toolResult (t : ToolName) (resp : GatewayResponse) : Except String String :=
  match resp.error with
  | some e => Except.error (errorHead t ++ Json.stringify e)
  | none => Except.ok (renderSuccess t resp.data)

/-! ## Instrumented handler pipelines

Each pipeline takes the gateway as a function argument and returns the list
of gateway requests it issued together with the tool result, making the
single-call (no-retry) structure of the handlers provable. -/

/-- The send-email handler: build the request (possibly throwing the `from`
guard before any network interaction), then call the gateway exactly once
and render the response. -/
def sendEmailInvoke (cfg : ProcessConfig) (a : SendEmailArgs)
    (gw : EmailRequest → GatewayResponse) :
    List EmailRequest × Except String String :=
  match sendEmailBuild cfg a with
  | Except.error m => ([], Except.error m)
  | Except.ok req => ([req], toolResult ToolName.sendEmail (gw req))

/-- The send-batch-emails handler: normalize every entry, then call the
gateway exactly once with the normalized list and render the response.
There is no local missing-sender check. -/
def sendBatchInvoke (cfg : ProcessConfig) (emails : List BatchEmail)
    (gw : List BatchEmail → GatewayResponse) :
    List (List BatchEmail) × Except String String :=
  let batchEmails := emails.map (batchForward cfg)
  ([batchEmails], toolResult ToolName.sendBatchEmails (gw batchEmails))

/-- The delete-contact handler: the identifier guard runs before the
gateway call; when it throws, no request is issued. -/
def deleteContactInvoke (a : DeleteContactArgs)
    (gw : DeleteContactRequest → GatewayResponse) :
    List DeleteContactRequest × Except String String :=
  match deleteContactBuild a with
  | Except.error m => ([], Except.error m)
  | Except.ok req => ([req], toolResult ToolName.deleteContact (gw req))

/-- The send-broadcast handler: one gateway call carrying the broadcast id
and the conditional options object. -/
def sendBroadcastInvoke (a : SendBroadcastArgs)
    (gw : String × Option BroadcastSendOptions → GatewayResponse) :
    List (String × Option BroadcastSendOptions) × Except String String :=
  let req := (a.broadcastId, sendBroadcastPayload a.scheduledAt)
  ([req], toolResult ToolName.sendBroadcast (gw req))

/-! ## Concrete fixtures

Sample configurations, invocations, and gateway stubs used to evaluate the
theorems below on concrete inputs. -/

/-- Whether every character of a string is ASCII. -/
def asciiOnly (s : String) : Bool := s.toList.all (fun c => decide (c.toNat ≤ 127))

/-- No configured defaults. -/
def cfgNone : ProcessConfig :=
  { senderEmailAddress := none, replierEmailAddresses := [] }

/-- A configured default sender and no configured reply-to list. -/
def cfgSender : ProcessConfig :=
  { senderEmailAddress := some "default@x.com", replierEmailAddresses := [] }

/-- A configured default sender and a nonempty configured reply-to list. -/
def cfgReply : ProcessConfig :=
  { senderEmailAddress := some "default@x.com", replierEmailAddresses := ["r@x.com"] }

/-- A minimal send-email invocation supplying `from`. -/
def argsFrom : SendEmailArgs :=
  { «to» := Recipients.single "a@x.com", subject := "Hi", text := "Body"
    html := none, cc := none, bcc := none, scheduledAt := none, tags := none
    attachments := none, headers := none, «from» := some "s@x.com", replyTo := none }

/-- The same invocation without `from`. -/
def argsNoFrom : SendEmailArgs := { argsFrom with «from» := none }

/-- A minimal batch entry supplying `from`. -/
def entryFrom : BatchEmail :=
  { «to» := Recipients.single "a@x.com", subject := "Hi", text := "Body"
    «from» := some "s@x.com", html := none, cc := none, bcc := none
    replyTo := none, scheduledAt := none, tags := none, attachments := none
    headers := none }

/-- The same batch entry without `from`. -/
def entryNoFrom : BatchEmail := { entryFrom with «from» := none }

/-- A tag whose name has 257 characters. -/
def badTagLong : Tag := { name := String.mk (List.replicate 257 'a'), value := "v" }

/-- A tag whose name contains a non-ASCII character. -/
def badTagUnicode : Tag := { name := "é", value := "v" }

/-- A send-email invocation carrying both offending tags. -/
def argsBadTags : SendEmailArgs :=
  { argsFrom with tags := some [badTagLong, badTagUnicode] }

/-- A supplied reply-to value. -/
def rcpR : Recipients := Recipients.single "rep@x.com"

/-- The minimal invocation with a supplied reply-to. -/
def argsReply : SendEmailArgs := { argsFrom with replyTo := some rcpR }

/-- delete-contact arguments with neither identifier. -/
def dcArgsNone : DeleteContactArgs :=
  { audienceId := "aud_1", contactId := none, email := none }

/-- send-broadcast arguments without `scheduledAt`. -/
def sbArgsNone : SendBroadcastArgs := { broadcastId := "bc_1", scheduledAt := none }

/-- A gateway stub returning an empty success. -/
def gwEmail : EmailRequest → GatewayResponse :=
  fun _ => { error := none, data := none }

/-- A gateway stub for batch sends. -/
def gwBatch : List BatchEmail → GatewayResponse :=
  fun _ => { error := none, data := none }

/-- A gateway stub for contact deletion. -/
def gwDelete : DeleteContactRequest → GatewayResponse :=
  fun _ => { error := none, data := none }

/-- A gateway stub for broadcast sends. -/
def gwBroadcast : String × Option BroadcastSendOptions → GatewayResponse :=
  fun _ => { error := none, data := none }

/-- A structured provider error payload. -/
def errPayload : Json :=
  Json.obj [("statusCode", Json.num 403), ("message", Json.str "forbidden"),
    ("name", Json.str "validation_error")]

/-- A gateway response carrying the error payload. -/
def respErr : GatewayResponse := { error := some errPayload, data := none }

/-- The request built from `argsFrom` under `cfgNone`. -/
def reqFromNone : EmailRequest := mkEmailRequest cfgNone argsFrom "s@x.com"

/-- The request built from `argsFrom` under `cfgReply`. -/
def reqFromReply : EmailRequest := mkEmailRequest cfgReply argsFrom "s@x.com"

/-- The request built from `argsReply` under `cfgNone`. -/
def reqReplySupplied : EmailRequest := mkEmailRequest cfgNone argsReply "s@x.com"

end ResendMcp

namespace ResendMcp

/-! ## Helper lemmas -/

/-- An address accepted by the email validator is nonempty. -/
theorem zodEmail_ne_empty {f : String} (h : zodEmail f = true) : f ≠ "" := by
  intro he
  rw [he] at h
  have hfalse : zodEmail "" = false := by decide
  rw [hfalse] at h
  exact Bool.false_ne_true h

/-- A truthy configured sender is a concrete string value. -/
theorem senderTruthy_some {cfg : ProcessConfig} (h : senderTruthy cfg = true) :
    ∃ s, cfg.senderEmailAddress = some s := by
  unfold senderTruthy at h
  cases hc : cfg.senderEmailAddress with
  | none => rw [hc] at h; exact absurd h (by simp)
  | some s => exact ⟨s, rfl⟩

/-- The send-email build step succeeds exactly when the sender resolves,
producing the request object for the resolved sender. -/
theorem sendEmailBuild_ok_iff {cfg : ProcessConfig} {a : SendEmailArgs}
    {r : EmailRequest} :
    sendEmailBuild cfg a = Except.ok r ↔
      ∃ f, resolveFrom cfg a = some f ∧ r = mkEmailRequest cfg a f := by
  unfold sendEmailBuild
  cases hf : resolveFrom cfg a with
  | none => simp
  | some f =>
    constructor
    · intro h
      simp only [Except.ok.injEq] at h
      exact ⟨f, rfl, h.symm⟩
    · intro ⟨g, hg, hr⟩
      simp only [Option.some.injEq] at hg
      rw [hr, hg]

/-- Under a schema-valid invocation the resolved sender is always a string,
so the build step never throws. -/
theorem sendEmailBuild_ok_of_schemaOk (cfg : ProcessConfig) (a : SendEmailArgs)
    (h : sendEmailSchemaOk cfg a = true) :
    ∃ r, sendEmailBuild cfg a = Except.ok r := by
  have hf : fromFieldOk cfg a = true := by
    simp only [sendEmailSchemaOk, Bool.and_eq_true] at h
    exact h.1.2
  unfold fromFieldOk at hf
  cases hfrom : a.«from» with
  | some f =>
    exact ⟨mkEmailRequest cfg a f, by simp [sendEmailBuild, resolveFrom, hfrom]⟩
  | none =>
    cases hs : senderTruthy cfg with
    | true =>
      obtain ⟨s, hsome⟩ := senderTruthy_some hs
      exact ⟨mkEmailRequest cfg a s,
        by simp [sendEmailBuild, resolveFrom, hfrom, hsome]⟩
    | false =>
      rw [hs, hfrom] at hf
      simp at hf

/-! ## Claims -/

/-- Claim C1: for send-email, the outgoing request's sender is the supplied
`from` whenever one is present (the configured default is never consulted),
and the configured default sender when `from` is absent; the batch handler
applies the same resolution to every entry (a schema-valid supplied `from`
is a nonempty email, so `||` keeps it; an absent `from` resolves to the
configured value). -/
theorem c1_sender_resolution :
    (∀ (cfg : ProcessConfig) (a : SendEmailArgs) (f : String), a.«from» = some f →
       ∃ r, sendEmailBuild cfg a = Except.ok r ∧ r.«from» = f) ∧
    (∀ (cfg : ProcessConfig) (a : SendEmailArgs) (s : String), a.«from» = none →
       cfg.senderEmailAddress = some s →
       ∃ r, sendEmailBuild cfg a = Except.ok r ∧ r.«from» = s) ∧
    (∀ (cfg : ProcessConfig) (e : BatchEmail) (f : String),
       batchEntrySchemaOk e = true → e.«from» = some f →
       (batchForward cfg e).«from» = some f) ∧
    (∀ (cfg : ProcessConfig) (e : BatchEmail), e.«from» = none →
       (batchForward cfg e).«from» = cfg.senderEmailAddress) := by
  refine ⟨?_, ?_, ?_, ?_⟩
  · intro cfg a f hf
    exact ⟨mkEmailRequest cfg a f, by simp [sendEmailBuild, resolveFrom, hf], rfl⟩
  · intro cfg a s hf hs
    exact ⟨mkEmailRequest cfg a s,
      by simp [sendEmailBuild, resolveFrom, hf, hs], rfl⟩
  · intro cfg e f hok hf
    have hz : zodEmail f = true := by
      simp only [batchEntrySchemaOk, Bool.and_eq_true, hf] at hok
      exact hok.1.1.1.2
    simp [batchForward, jsOrStr, hf, zodEmail_ne_empty hz]
  · intro cfg e hf
    simp [batchForward, jsOrStr, hf]

/-- Witness for C1 at concrete inputs: a supplied sender wins over the
configured default; an omitted sender falls back to it, for both the single
and the batch tool. -/
theorem c1_witness :
    (∃ r, sendEmailBuild cfgSender argsFrom = Except.ok r ∧ r.«from» = "s@x.com") ∧
    (∃ r, sendEmailBuild cfgSender argsNoFrom = Except.ok r ∧
       r.«from» = "default@x.com") ∧
    (batchForward cfgSender entryFrom).«from» = some "s@x.com" ∧
    (batchForward cfgSender entryNoFrom).«from» = cfgSender.senderEmailAddress :=
  ⟨c1_sender_resolution.1 cfgSender argsFrom "s@x.com" rfl,
   c1_sender_resolution.2.1 cfgSender argsNoFrom "default@x.com" rfl rfl,
   c1_sender_resolution.2.2.1 cfgSender entryFrom "s@x.com" (by decide) rfl,
   c1_sender_resolution.2.2.2 cfgSender entryNoFrom rfl⟩

/-- Counterexample to claim C2's zero-entry clause: the `emails` schema is
`z.array(...).max(100)` with no minimum, so the empty list passes
validation instead of being rejected as a schema violation. -/
theorem c2_counterexample : sendBatchValidate [] = Except.ok () := rfl

/-- Claim C2 (amended): a batch of at most 100 schema-valid entries is
accepted, and a batch of 101 entries is rejected with the over-limit error;
an empty list is also accepted, since the schema imposes no minimum. -/
theorem c2_batch_length_validation :
    (∀ emails : List BatchEmail, emails.all batchEntrySchemaOk = true →
       emails.length ≤ 100 → sendBatchValidate emails = Except.ok ()) ∧
    (∀ emails : List BatchEmail, emails.length = 101 →
       sendBatchValidate emails = Except.error BatchSchemaError.tooManyRecipients) ∧
    sendBatchValidate [] = Except.ok () := by
  refine ⟨?_, ?_, rfl⟩
  · intro emails hok hlen
    unfold sendBatchValidate
    rw [if_neg (by omega), if_pos hok]
  · intro emails hlen
    unfold sendBatchValidate
    rw [if_pos (by omega)]

/-- Witness for C2 at concrete inputs: one valid entry is accepted and 101
entries are rejected with the over-limit error. -/
theorem c2_witness :
    sendBatchValidate [entryFrom] = Except.ok () ∧
    sendBatchValidate (List.replicate 101 entryFrom) =
      Except.error BatchSchemaError.tooManyRecipients :=
  ⟨c2_batch_length_validation.1 [entryFrom] (by decide) (by decide),
   c2_batch_length_validation.2.1 (List.replicate 101 entryFrom) (by decide)⟩

set_option maxRecDepth 4000 in
/-- Claim C3 is the documented intent but not the code: the tags schema in
`src/index.ts` is `z.array(z.object({ name: z.string(), value: z.string() }))`
with no ASCII or length-256 constraint, so an invocation whose tag name has
257 characters, and one with a non-ASCII name, pass validation and reach
the outgoing request instead of failing with `InvalidTagFormat`. -/
theorem c3_tags_unvalidated :
    sendEmailSchemaOk cfgNone argsBadTags = true ∧
    257 ≤ badTagLong.name.length ∧
    asciiOnly badTagUnicode.name = false ∧
    (∃ r, sendEmailBuild cfgNone argsBadTags = Except.ok r ∧
       r.tags = some [badTagLong, badTagUnicode]) :=
  ⟨by decide, by decide, by decide,
   ⟨mkEmailRequest cfgNone argsBadTags "s@x.com", rfl, rfl⟩⟩

/-- Claim C4: with no configured reply-to list the `replyTo` key is an
optional schema field whose supplied value reaches the outgoing request;
with a nonempty configured list the key is not part of the schema (so no
schema-valid invocation carries it) and every built request carries the
configured list. -/
theorem c4_replyTo_policy :
    (∀ (cfg : ProcessConfig) (a : SendEmailArgs) (rcp : Recipients),
       cfg.replierEmailAddresses = [] → sendEmailSchemaOk cfg a = true →
       recipientsOk rcp = true →
       sendEmailSchemaOk cfg { a with replyTo := some rcp } = true) ∧
    (∀ (cfg : ProcessConfig) (a : SendEmailArgs) (rcp : Recipients) (r : EmailRequest),
       cfg.replierEmailAddresses = [] → a.replyTo = some rcp →
       replyToIncluded rcp = true → sendEmailBuild cfg a = Except.ok r →
       r.replyTo = some rcp) ∧
    (∀ (cfg : ProcessConfig) (a : SendEmailArgs),
       cfg.replierEmailAddresses ≠ [] → sendEmailSchemaOk cfg a = true →
       a.replyTo = none ∧
       ∃ r, sendEmailBuild cfg a = Except.ok r ∧
         r.replyTo = some (Recipients.list cfg.replierEmailAddresses)) := by
  refine ⟨?_, ?_, ?_⟩
  · intro cfg a rcp hre h hrcp
    simp only [sendEmailSchemaOk, Bool.and_eq_true] at h ⊢
    exact ⟨h.1, by simp [replyFieldOk, hre, hrcp]⟩
  · intro cfg a rcp r hre hrt hinc hok
    obtain ⟨f, hf, hr⟩ := sendEmailBuild_ok_iff.mp hok
    subst hr
    simp [mkEmailRequest, resolveReplyTo, hrt, hinc]
  · intro cfg a hre h
    have h5 : replyFieldOk cfg a = true := by
      simp only [sendEmailSchemaOk, Bool.and_eq_true] at h
      exact h.2
    have hnil : a.replyTo = none := by
      unfold replyFieldOk at h5
      cases hc : cfg.replierEmailAddresses with
      | nil => exact absurd hc hre
      | cons x xs =>
        rw [hc] at h5
        simp only [List.length_cons] at h5
        cases hrt : a.replyTo with
        | none => rfl
        | some rr => rw [hrt] at h5; simp at h5
    obtain ⟨r, hr⟩ := sendEmailBuild_ok_of_schemaOk cfg a h
    refine ⟨hnil, r, hr, ?_⟩
    obtain ⟨f, hf, hreq⟩ := sendEmailBuild_ok_iff.mp hr
    subst hreq
    have hlen : 0 < cfg.replierEmailAddresses.length := List.length_pos.mpr hre
    simp [mkEmailRequest, resolveReplyTo, hnil, replyToIncluded, hlen]

/-- Witness for C4 at concrete inputs: with no configured list a supplied
reply-to passes the schema and lands in the request; with a configured list
the schema leaves `replyTo` absent and the request carries the configured
addresses. -/
theorem c4_witness :
    sendEmailSchemaOk cfgNone { argsFrom with replyTo := some rcpR } = true ∧
    reqReplySupplied.replyTo = some rcpR ∧
    (argsNoFrom.replyTo = none ∧
      ∃ r, sendEmailBuild cfgReply argsNoFrom = Except.ok r ∧
        r.replyTo = some (Recipients.list cfgReply.replierEmailAddresses)) :=
  ⟨c4_replyTo_policy.1 cfgNone argsFrom rcpR rfl (by decide) (by decide),
   c4_replyTo_policy.2.1 cfgNone argsReply rcpR reqReplySupplied rfl rfl
     (by decide) rfl,
   c4_replyTo_policy.2.2 cfgReply argsNoFrom (by decide) (by decide)⟩

/-- Claim C5: each optional field the invocation omits is absent from the
built request (never null or empty); an omitted `replyTo` is replaced by the
configured list exactly when that list is nonempty; and send-broadcast
without `scheduledAt` issues its gateway call with no options object. -/
theorem c5_omitted_fields_absent :
    (∀ (cfg : ProcessConfig) (a : SendEmailArgs) (r : EmailRequest),
       sendEmailBuild cfg a = Except.ok r →
       (a.html = none → r.html = none) ∧
       (a.scheduledAt = none → r.scheduledAt = none) ∧
       (a.cc = none → r.cc = none) ∧
       (a.bcc = none → r.bcc = none) ∧
       (a.tags = none → r.tags = none) ∧
       (a.attachments = none → r.attachments = none) ∧
       (a.headers = none → r.headers = none) ∧
       (a.replyTo = none → cfg.replierEmailAddresses = [] → r.replyTo = none) ∧
       (a.replyTo = none → cfg.replierEmailAddresses ≠ [] →
          r.replyTo = some (Recipients.list cfg.replierEmailAddresses))) ∧
    (∀ (a : SendBroadcastArgs)
       (gw : String × Option BroadcastSendOptions → GatewayResponse),
       a.scheduledAt = none →
       (sendBroadcastInvoke a gw).1 = [(a.broadcastId, none)]) := by
  constructor
  · intro cfg a r hok
    obtain ⟨f, hf, hr⟩ := sendEmailBuild_ok_iff.mp hok
    subst hr
    refine ⟨?_, ?_, ?_, ?_, ?_, ?_, ?_, ?_, ?_⟩
    · intro h; simp [mkEmailRequest, h]
    · intro h; simp [mkEmailRequest, h]
    · intro h; simp [mkEmailRequest, h]
    · intro h; simp [mkEmailRequest, h]
    · intro h; simp [mkEmailRequest, h]
    · intro h; simp [mkEmailRequest, h]
    · intro h; simp [mkEmailRequest, h]
    · intro h hre
      simp [mkEmailRequest, resolveReplyTo, h, hre, replyToIncluded]
    · intro h hre
      have hlen : 0 < cfg.replierEmailAddresses.length := List.length_pos.mpr hre
      simp [mkEmailRequest, resolveReplyTo, h, replyToIncluded, hlen]
  · intro a gw h
    simp [sendBroadcastInvoke, sendBroadcastPayload, h]

/-- Witness for C5 at concrete inputs: the minimal invocation produces a
request with all optional fields absent under an empty reply-to
configuration, carries the configured list when one exists, and the
broadcast call has no options object. -/
theorem c5_witness :
    (argsFrom.html = none → reqFromNone.html = none) ∧
    (argsFrom.replyTo = none → cfgNone.replierEmailAddresses = [] →
       reqFromNone.replyTo = none) ∧
    (argsFrom.replyTo = none → cfgReply.replierEmailAddresses ≠ [] →
       reqFromReply.replyTo = some (Recipients.list cfgReply.replierEmailAddresses)) ∧
    (sendBroadcastInvoke sbArgsNone gwBroadcast).1 = [(sbArgsNone.broadcastId, none)] :=
  ⟨(c5_omitted_fields_absent.1 cfgNone argsFrom reqFromNone rfl).1,
   (c5_omitted_fields_absent.1 cfgNone argsFrom reqFromNone rfl).2.2.2.2.2.2.2.1,
   (c5_omitted_fields_absent.1 cfgReply argsFrom reqFromReply rfl).2.2.2.2.2.2.2.2,
   c5_omitted_fields_absent.2 sbArgsNone gwBroadcast rfl⟩

/-- Claim C6: when neither `contactId` nor `email` is present, the
delete-contact handler throws `MissingIdentifier` (the message
"Either contactId or email must be provided") and issues no gateway
request at all. -/
theorem c6_missing_identifier (a : DeleteContactArgs)
    (gw : DeleteContactRequest → GatewayResponse)
    (h1 : a.contactId = none) (h2 : a.email = none) :
    deleteContactInvoke a gw =
      ([], Except.error "Either contactId or email must be provided") := by
  simp [deleteContactInvoke, deleteContactBuild, strFalsy, h1, h2]

/-- Witness for C6 at a concrete input. -/
theorem c6_witness :
    deleteContactInvoke dcArgsNone gwDelete =
      ([], Except.error "Either contactId or email must be provided") :=
  c6_missing_identifier dcArgsNone gwDelete rfl rfl

/-- Claim C7: whenever the gateway returns a structured error, every tool's
result is a failure whose message is the tool's fixed text followed by the
JSON-serialized error payload (so the payload is embedded verbatim and never
replaced by a success); and each handler issues at most one gateway call per
invocation, so a failing call is never retried. -/
theorem c7_upstream_error_propagation :
    (∀ (t : ToolName) (resp : GatewayResponse) (e : Json), resp.error = some e →
       toolResult t resp = Except.error (errorHead t ++ Json.stringify e)) ∧
    (∀ (cfg : ProcessConfig) (a : SendEmailArgs)
       (gw : EmailRequest → GatewayResponse),
       (sendEmailInvoke cfg a gw).1.length ≤ 1) ∧
    (∀ (cfg : ProcessConfig) (emails : List BatchEmail)
       (gw : List BatchEmail → GatewayResponse),
       (sendBatchInvoke cfg emails gw).1.length = 1) ∧
    (∀ (a : SendBroadcastArgs)
       (gw : String × Option BroadcastSendOptions → GatewayResponse),
       (sendBroadcastInvoke a gw).1.length = 1) := by
  refine ⟨?_, ?_, ?_, ?_⟩
  · intro t resp e he
    simp [toolResult, he]
  · intro cfg a gw
    cases hb : sendEmailBuild cfg a with
    | error m => simp [sendEmailInvoke, hb]
    | ok req => simp [sendEmailInvoke, hb]
  · intro cfg emails gw
    simp [sendBatchInvoke]
  · intro a gw
    simp [sendBroadcastInvoke]

/-- Witness for C7 at a concrete error payload and concrete invocations. -/
theorem c7_witness :
    toolResult ToolName.sendEmail respErr =
      Except.error (errorHead ToolName.sendEmail ++ Json.stringify errPayload) ∧
    (sendEmailInvoke cfgSender argsNoFrom gwEmail).1.length ≤ 1 ∧
    (sendBatchInvoke cfgSender [entryNoFrom] gwBatch).1.length = 1 ∧
    (sendBroadcastInvoke sbArgsNone gwBroadcast).1.length = 1 :=
  ⟨c7_upstream_error_propagation.1 ToolName.sendEmail respErr errPayload rfl,
   c7_upstream_error_propagation.2.1 cfgSender argsNoFrom gwEmail,
   c7_upstream_error_propagation.2.2.1 cfgSender [entryNoFrom] gwBatch,
   c7_upstream_error_propagation.2.2.2 sbArgsNone gwBroadcast⟩

/-- Claim C8: a batch entry without `from` under a configuration with no
default sender is not rejected locally: the handler always issues its single
gateway call, the entry is forwarded with no sender value, and the tool
result can only be an error when the gateway itself returned one. -/
theorem c8_batch_missing_sender_forwarded (cfg : ProcessConfig)
    (emails : List BatchEmail) (gw : List BatchEmail → GatewayResponse)
    (e : BatchEmail) (he : e ∈ emails) (hf : e.«from» = none)
    (hs : cfg.senderEmailAddress = none) :
    (sendBatchInvoke cfg emails gw).1 = [emails.map (batchForward cfg)] ∧
    batchForward cfg e ∈ emails.map (batchForward cfg) ∧
    (batchForward cfg e).«from» = none ∧
    (∀ m, (sendBatchInvoke cfg emails gw).2 = Except.error m →
       ∃ err, (gw (emails.map (batchForward cfg))).error = some err ∧
         m = errorHead ToolName.sendBatchEmails ++ Json.stringify err) := by
  refine ⟨rfl, List.mem_map_of_mem _ he,
    by simp [batchForward, jsOrStr, hf, hs], ?_⟩
  intro m hm
  simp only [sendBatchInvoke, toolResult] at hm
  cases herr : (gw (emails.map (batchForward cfg))).error with
  | none => rw [herr] at hm; simp at hm
  | some err =>
    rw [herr] at hm
    simp only [Except.error.injEq] at hm
    exact ⟨err, rfl, hm.symm⟩

/-- Witness for C8 at a concrete entry and configuration. -/
theorem c8_witness :
    (sendBatchInvoke cfgNone [entryNoFrom] gwBatch).1 =
      [[entryNoFrom].map (batchForward cfgNone)] ∧
    batchForward cfgNone entryNoFrom ∈ [entryNoFrom].map (batchForward cfgNone) ∧
    (batchForward cfgNone entryNoFrom).«from» = none ∧
    (∀ m, (sendBatchInvoke cfgNone [entryNoFrom] gwBatch).2 = Except.error m →
       ∃ err, (gwBatch ([entryNoFrom].map (batchForward cfgNone))).error = some err ∧
         m = errorHead ToolName.sendBatchEmails ++ Json.stringify err) :=
  c8_batch_missing_sender_forwarded cfgNone [entryNoFrom] gwBatch entryNoFrom
    (List.mem_singleton.mpr rfl) rfl rfl

/-- Claim C9: supplying an optional string parameter as the empty string is
indistinguishable from omitting it: the handler's truthiness checks drop
`html`, `scheduledAt`, and a `cc`/`bcc` given as an empty address string, so
the built request is identical to the one for the absent parameter.  (An
empty array for `cc`/`bcc` is a different value: arrays are truthy in
JavaScript and are kept.) -/
theorem c9_empty_string_like_absent (cfg : ProcessConfig) (a : SendEmailArgs) :
    sendEmailBuild cfg { a with html := some "" } =
      sendEmailBuild cfg { a with html := none } ∧
    sendEmailBuild cfg { a with scheduledAt := some "" } =
      sendEmailBuild cfg { a with scheduledAt := none } ∧
    sendEmailBuild cfg { a with cc := some (Recipients.single "") } =
      sendEmailBuild cfg { a with cc := none } ∧
    sendEmailBuild cfg { a with bcc := some (Recipients.single "") } =
      sendEmailBuild cfg { a with bcc := none } :=
  ⟨rfl, rfl, rfl, rfl⟩

/-- Claim C10: the `typeof fromEmailAddress !== "string"` guard can never
fire on schema-valid arguments: with no (truthy) configured sender the
schema makes `from` a required valid email, and with a configured sender the
resolution falls back to that string, so the build step always returns a
request. -/
theorem c10_from_guard_unreachable (cfg : ProcessConfig) (a : SendEmailArgs)
    (h : sendEmailSchemaOk cfg a = true) :
    ∃ r, sendEmailBuild cfg a = Except.ok r :=
  sendEmailBuild_ok_of_schemaOk cfg a h

/-- Witness for C10 at concrete inputs on both sides of the conditional
schema. -/
theorem c10_witness :
    (∃ r, sendEmailBuild cfgSender argsNoFrom = Except.ok r) ∧
    (∃ r, sendEmailBuild cfgNone argsFrom = Except.ok r) :=
  ⟨c10_from_guard_unreachable cfgSender argsNoFrom (by decide),
   c10_from_guard_unreachable cfgNone argsFrom (by decide)⟩

end ResendMcp
